import Mathlib

/-
Shallow embedding of the connection-management core of basable2
(src/core/src/base/foundation.rs): the Basable registry with its users and
connections maps, connection creation dispatch, guest-user creation, lookup,
logout and config saving. Types that live outside the provided source
(Config, SourceType, Database, User, JwtSession, AppError, MysqlConn,
SharedConnection) are modelled from the specification, faithful to its words;
the registry operations themselves are translated directly from the source.
-/

/-- Modelled from the spec: database variants of the source-type tag.
The spec names a supported MySQL-like variant and reserves others; Postgres
appears in the spec as an unimplemented variant. -/
inductive Database where
  | mysql
  | postgres
deriving DecidableEq, Repr

/-- Modelled from the spec: the source-type discriminant of a
ConnectionConfig, either a database variant or another non-database source
kind reserved for future use. -/
inductive SourceType where
  | database (db : Database)
  | other
deriving DecidableEq, Repr

/-- Modelled from the spec: ConnectionConfig, a source-type tag plus
backend-specific connection details (opaque here). -/
structure Config where
  source_type : SourceType
  details : String
deriving DecidableEq, Repr

/-- Modelled from the spec: a User is a stable identity key plus a login
state flag. -/
structure User where
  id : String
  is_logged : Bool
deriving DecidableEq, Repr

/-- Modelled from the spec: the opaque session token minted for an identity. -/
structure JwtSession where
  token : String
deriving DecidableEq, Repr

/-- Modelled from the spec: the error taxonomy of section 7 of the spec
(unsupported source, connection error, introspection error, not-found,
session-minting error). -/
inductive AppError where
  | unsupportedSource
  | connectionError (msg : String)
  | introspectionError (msg : String)
  | notFound (msg : String)
  | sessionMinting (msg : String)
deriving DecidableEq, Repr

/-- Modelled from the spec: a MySQL driver instance constructed from a
ConnectionConfig. The constructor itself is external code, so operations
that call it are parameterized by a function standing for MysqlConn::new. -/
structure MysqlConn where
  config : Config
deriving DecidableEq, Repr

/-- SharedConnection, the Arc-Mutex wrapper around exactly one driver
instance. Reference counting and the mutex are erased in this sequential
embedding; what remains is that the handle wraps exactly one driver. -/
structure SharedConnection where
  conn : MysqlConn
deriving DecidableEq, Repr

/-- HashMap of String keys, modelled as a total function to Option. -/
def StrMap (V : Type) : Type := String → Option V

/-- HashMap::get. -/
def StrMap.get {V : Type} (m : StrMap V) (k : String) : Option V := m k

/-- HashMap::insert: overwrites any existing entry at the key. -/
def StrMap.insert {V : Type} (m : StrMap V) (k : String) (v : V) : StrMap V :=
  fun q => if q = k then some v else m q

/-- HashMap::remove. -/
def StrMap.remove {V : Type} (m : StrMap V) (k : String) : StrMap V :=
  fun q => if q = k then none else m q

/-- HashMap::new, the empty map (Default). -/
def StrMap.empty {V : Type} : StrMap V := fun _ => none

/-- The Basable registry: the map of active users and the map of user id to
shared connection handle (struct Basable in foundation.rs). -/
structure Basable where
  users : StrMap User
  connections : StrMap SharedConnection

/-- The Default instance of Basable: both maps empty. -/
def Basable.default : Basable :=
  { users := StrMap.empty, connections := StrMap.empty }

/-- Outcome of running a Rust function that may return a value, return an
error, or abort the process with a panic. -/
inductive RunResult (A : Type) where
  | ok (a : A)
  | err (e : AppError)
  | panicked (msg : String)
deriving DecidableEq, Repr

/-- Basable::create_connection. Dispatches on the source type of the config:
the MySQL database variant constructs a driver via MysqlConn::new (the
question-mark operator propagates its error) and wraps it in a shared
handle; every other variant hits a todo macro, which panics with the message
"not yet implemented". The function is an associated function without a
self receiver: it never touches the registry maps. -/
def create_connection (mysqlNew : Config → Except AppError MysqlConn)
    (config : Config) : RunResult (Option SharedConnection) :=
  match config.source_type with
  | SourceType.database db =>
    match db with
    | Database.mysql =>
      match mysqlNew config with
      | Except.ok conn => RunResult.ok (some { conn := conn })
      | Except.error e => RunResult.err e
    | _ => RunResult.panicked "not yet implemented"
  | _ => RunResult.panicked "not yet implemented"

/-- Basable::get_connection: lookup of the connections map by user id. The
receiver is a shared reference, so the registry state cannot change. -/
def Basable.get_connection (b : Basable) (user_id : String) :
    Option SharedConnection :=
  b.connections.get user_id

/-- Basable::find_user: lookup of the users map by user id. The receiver is
a shared reference, so the registry state cannot change. -/
def Basable.find_user (b : Basable) (user_id : String) : Option User :=
  b.users.get user_id

/-- Basable::add_user: inserts the user into the users map keyed by the id
field of the user itself. -/
def Basable.add_user (b : Basable) (user : User) : Basable :=
  { b with users := b.users.insert user.id user }

/-- Basable::create_guest_user: mints a session token for the request ip
(create_jwt is external session-minting code, passed as a parameter; the
question-mark operator propagates its error before anything else happens),
then builds a User with id equal to the ip and is_logged false, adds it to
the users map and returns the session. The returned pair is the Rust
result together with the registry state after the call. -/
def Basable.create_guest_user (createJwt : String → Except AppError JwtSession)
    (b : Basable) (req_ip : String) : Except AppError JwtSession × Basable :=
  match createJwt req_ip with
  | Except.error e => (Except.error e, b)
  | Except.ok session_id =>
    (Except.ok session_id, b.add_user { id := req_ip, is_logged := false })

/-- Basable::save_config: looks up the user and calls expect on the result,
which panics when the user is absent (modelled as none). When the user is
present, persistence is delegated to the save_config operation of the User
itself, external code that per the spec sends the config to a remote store
through a shared reference and therefore leaves the registry maps
unchanged. -/
def Basable.save_config (b : Basable) (_config : Config) (user_id : String) :
    Option Basable :=
  match b.find_user user_id with
  | some _user => some b
  | none => none

/-- Basable::log_user_out: when the user is found, calls logout on it
(external code acting through a shared reference, so no registry effect)
and removes the entry from the users map; otherwise does nothing. -/
def Basable.log_user_out (b : Basable) (user_id : String) : Basable :=
  match b.find_user user_id with
  | some _user => { b with users := b.users.remove user_id }
  | none => b

/-- Basable::add_connection: inserts the handle into the connections map,
overwriting any prior entry for the user id. -/
def Basable.add_connection (b : Basable) (user_id : String)
    (conn : SharedConnection) : Basable :=
  { b with connections := b.connections.insert user_id conn }

/-- One state-changing operation of the registry core, for reasoning about
sequences of calls starting from the default registry. -/
inductive Op where
  | createGuestUser (origin : String)
  | logUserOut (uid : String)
  | addConnection (uid : String) (conn : SharedConnection)
  | saveConfig (cfg : Config) (uid : String)
deriving DecidableEq, Repr

/-- Runs one operation on a registry state; none means the call aborted
(the expect panic in save_config). -/
def runOp (createJwt : String → Except AppError JwtSession) (b : Basable) :
    Op → Option Basable
  | Op.createGuestUser origin =>
    some (Basable.create_guest_user createJwt b origin).2
  | Op.logUserOut uid => some (b.log_user_out uid)
  | Op.addConnection uid conn => some (b.add_connection uid conn)
  | Op.saveConfig cfg uid => b.save_config cfg uid

/-- Runs a sequence of operations, stopping at an abort. -/
def runTrace (createJwt : String → Except AppError JwtSession) (b : Basable) :
    List Op → Option Basable
  | [] => some b
  | op :: ops =>
    match runOp createJwt b op with
    | some next => runTrace createJwt next ops
    | none => none

lemma StrMap.get_insert_self {V : Type} (m : StrMap V) (k : String) (v : V) :
    (m.insert k v).get k = some v := by
  simp [StrMap.get, StrMap.insert]

lemma StrMap.get_insert_ne {V : Type} (m : StrMap V) (k q : String) (v : V)
    (h : q ≠ k) : (m.insert k v).get q = m.get q := by
  simp [StrMap.get, StrMap.insert, h]

lemma StrMap.get_remove_self {V : Type} (m : StrMap V) (k : String) :
    (m.remove k).get k = none := by
  simp [StrMap.get, StrMap.remove]

lemma StrMap.get_remove_ne {V : Type} (m : StrMap V) (k q : String)
    (h : q ≠ k) : (m.remove k).get q = m.get q := by
  simp [StrMap.get, StrMap.remove, h]

/-- Every entry of the users map has its key equal to the stored id field and
a false is_logged flag. -/
def GuestInv (b : Basable) : Prop :=
  ∀ k u, b.users.get k = some u → u.id = k ∧ u.is_logged = false

lemma create_guest_user_users_get (cj : String → Except AppError JwtSession)
    (b : Basable) (origin : String) (s : JwtSession)
    (h : cj origin = Except.ok s) :
    (Basable.create_guest_user cj b origin).2.users.get origin =
      some { id := origin, is_logged := false } := by
  simp [Basable.create_guest_user, h, Basable.add_user, StrMap.get,
    StrMap.insert]

lemma guestInv_runOp (cj : String → Except AppError JwtSession)
    {b next : Basable} {op : Op} (hb : GuestInv b)
    (h : runOp cj b op = some next) : GuestInv next := by
  cases op with
  | createGuestUser origin =>
    simp only [runOp] at h
    injection h with h2
    subst h2
    cases hcj : cj origin with
    | error e =>
      have hst : (Basable.create_guest_user cj b origin).2 = b := by
        simp [Basable.create_guest_user, hcj]
      rw [hst]; exact hb
    | ok s =>
      have hst : (Basable.create_guest_user cj b origin).2 =
          b.add_user { id := origin, is_logged := false } := by
        simp [Basable.create_guest_user, hcj]
      rw [hst]
      intro k u hu
      by_cases hk : k = origin
      · subst hk
        simp [Basable.add_user, StrMap.get, StrMap.insert] at hu
        subst hu
        exact ⟨rfl, rfl⟩
      · have heq : (b.add_user { id := origin, is_logged := false }).users.get k
            = b.users.get k := by
          simp [Basable.add_user, StrMap.get, StrMap.insert, hk]
        rw [heq] at hu
        exact hb k u hu
  | logUserOut uid =>
    simp only [runOp] at h
    injection h with h2
    subst h2
    cases hf : b.find_user uid with
    | some u0 =>
      have hst : b.log_user_out uid = { b with users := b.users.remove uid } := by
        simp [Basable.log_user_out, hf]
      rw [hst]
      intro k u hu
      by_cases hk : k = uid
      · subst hk
        rw [show ({ b with users := b.users.remove k } : Basable).users.get k
            = none from StrMap.get_remove_self b.users k] at hu
        exact Option.noConfusion hu
      · rw [show ({ b with users := b.users.remove uid } : Basable).users.get k
            = b.users.get k from StrMap.get_remove_ne b.users uid k hk] at hu
        exact hb k u hu
    | none =>
      have hst : b.log_user_out uid = b := by
        simp [Basable.log_user_out, hf]
      rw [hst]; exact hb
  | addConnection uid conn =>
    simp only [runOp] at h
    injection h with h2
    subst h2
    exact hb
  | saveConfig cfg uid =>
    simp only [runOp] at h
    cases hf : b.find_user uid with
    | some u0 =>
      have hsc : b.save_config cfg uid = some b := by
        simp [Basable.save_config, hf]
      rw [hsc] at h
      injection h with h2
      subst h2
      exact hb
    | none =>
      have hsc : b.save_config cfg uid = none := by
        simp [Basable.save_config, hf]
      rw [hsc] at h
      exact Option.noConfusion h

lemma guestInv_runTrace (cj : String → Except AppError JwtSession) :
    ∀ (ops : List Op) (b final : Basable), GuestInv b →
      runTrace cj b ops = some final → GuestInv final := by
  intro ops
  induction ops with
  | nil =>
    intro b final hb h
    simp [runTrace] at h
    subst h
    exact hb
  | cons op ops ih =>
    intro b final hb h
    cases hop : runOp cj b op with
    | some next =>
      simp only [runTrace, hop] at h
      exact ih next final (guestInv_runOp cj hb hop) h
    | none =>
      simp [runTrace, hop] at h

lemma connections_get_runOp (cj : String → Except AppError JwtSession)
    (uid : String) {b next : Basable} {op : Op}
    (hop : ∀ u c, op = Op.addConnection u c → u ≠ uid)
    (h : runOp cj b op = some next) :
    next.connections.get uid = b.connections.get uid := by
  cases op with
  | createGuestUser origin =>
    simp only [runOp] at h
    injection h with h2
    subst h2
    cases hcj : cj origin with
    | error e => simp [Basable.create_guest_user, hcj]
    | ok s => simp [Basable.create_guest_user, hcj, Basable.add_user]
  | logUserOut u2 =>
    simp only [runOp] at h
    injection h with h2
    subst h2
    cases hf : b.find_user u2 with
    | some u0 => simp [Basable.log_user_out, hf]
    | none => simp [Basable.log_user_out, hf]
  | addConnection u2 c =>
    simp only [runOp] at h
    injection h with h2
    subst h2
    have hne : uid ≠ u2 := fun hh => hop u2 c rfl hh.symm
    exact StrMap.get_insert_ne b.connections u2 uid c hne
  | saveConfig cfg u2 =>
    simp only [runOp] at h
    cases hf : b.find_user u2 with
    | some u0 =>
      have hsc : b.save_config cfg u2 = some b := by
        simp [Basable.save_config, hf]
      rw [hsc] at h
      injection h with h2
      subst h2
      rfl
    | none =>
      have hsc : b.save_config cfg u2 = none := by
        simp [Basable.save_config, hf]
      rw [hsc] at h
      exact Option.noConfusion h

lemma connections_get_runTrace (cj : String → Except AppError JwtSession)
    (uid : String) :
    ∀ (ops : List Op) (b final : Basable),
      (∀ u c, Op.addConnection u c ∈ ops → u ≠ uid) →
      runTrace cj b ops = some final →
      final.connections.get uid = b.connections.get uid := by
  intro ops
  induction ops with
  | nil =>
    intro b final _ h
    simp [runTrace] at h
    subst h
    rfl
  | cons op ops ih =>
    intro b final hops h
    cases hop : runOp cj b op with
    | some next =>
      simp only [runTrace, hop] at h
      have h1 : next.connections.get uid = b.connections.get uid :=
        connections_get_runOp cj uid
          (fun u c hc => hops u c (by rw [hc]; exact List.mem_cons_self _ _)) hop
      have h2 := ih next final
        (fun u c hc => hops u c (List.mem_cons_of_mem _ hc)) h
      rw [h2, h1]
    | none =>
      simp [runTrace, hop] at h

/-- Fixture: a session minter that always succeeds. -/
def cj0 : String → Except AppError JwtSession :=
  fun s => Except.ok { token := s }

/-- Fixture: a session minter that always fails. -/
def cjErr : String → Except AppError JwtSession :=
  fun _ => Except.error (AppError.sessionMinting "boom")

/-- Fixture: a MySQL constructor that always succeeds. -/
def mysqlNew0 : Config → Except AppError MysqlConn :=
  fun c => Except.ok { config := c }

/-- Fixture: a config with the supported MySQL source type. -/
def cfgMysql : Config :=
  { source_type := SourceType.database Database.mysql,
    details := "mysql:basable:3306" }

/-- Fixture: a config with the unimplemented Postgres variant. -/
def cfgPostgres : Config :=
  { source_type := SourceType.database Database.postgres,
    details := "postgres:basable:5432" }

/-- Fixture: a concrete shared connection handle. -/
def conn0 : SharedConnection := { conn := { config := cfgMysql } }

/-- Fixture: a concrete guest user. -/
def user0 : User := { id := "u", is_logged := false }

/-- Fixture: a registry holding exactly user0. -/
def b1 : Basable := Basable.default.add_user user0

/-- Fixture: a small operation trace that never adds a connection. -/
def traceA : List Op := [Op.createGuestUser "a", Op.logUserOut "a"]

/-- C1 (counterexample): at a Postgres config, create_connection does not
return the Unsupported-source error the claim states; it aborts through the
todo macro with the panic message "not yet implemented", so its outcome is
not an error value at all. -/
theorem create_connection_todo_not_error :
    create_connection mysqlNew0 cfgPostgres =
      RunResult.panicked "not yet implemented" ∧
    ∀ e : AppError,
      create_connection mysqlNew0 cfgPostgres ≠ RunResult.err e := by
  refine ⟨rfl, fun e he => ?_⟩
  simp [create_connection, cfgPostgres] at he

/-- C1 (amended): for every ConnectionConfig whose source type is not the
supported MySQL database variant, create_connection aborts through the todo
macro (panic message "not yet implemented") rather than returning; in
particular it never silently succeeds, and, being an associated function
that takes no registry reference, it creates no registry entry. -/
theorem create_connection_unsupported_panics
    (mysqlNew : Config → Except AppError MysqlConn) (config : Config)
    (h : config.source_type ≠ SourceType.database Database.mysql) :
    create_connection mysqlNew config =
      RunResult.panicked "not yet implemented" ∧
    ∀ r : Option SharedConnection,
      create_connection mysqlNew config ≠ RunResult.ok r := by
  obtain ⟨st, det⟩ := config
  cases st with
  | database db =>
    cases db with
    | mysql => exact absurd rfl h
    | postgres =>
      refine ⟨rfl, fun r hr => ?_⟩
      simp [create_connection] at hr
  | other =>
    refine ⟨rfl, fun r hr => ?_⟩
    simp [create_connection] at hr

/-- Witness for C1 at the Postgres config. -/
theorem create_connection_unsupported_panics_witness :
    create_connection mysqlNew0 cfgPostgres =
      RunResult.panicked "not yet implemented" :=
  (create_connection_unsupported_panics mysqlNew0 cfgPostgres (by decide)).1

/-- C2: for every ConnectionConfig whose source type is Database(MySQL), if
the MySQL driver constructor succeeds then create_connection returns Ok of
Some of a handle wrapping exactly that driver instance; the supported path
never returns None. -/
theorem create_connection_mysql_ok
    (mysqlNew : Config → Except AppError MysqlConn) (config : Config)
    (conn : MysqlConn)
    (hst : config.source_type = SourceType.database Database.mysql)
    (hnew : mysqlNew config = Except.ok conn) :
    create_connection mysqlNew config = RunResult.ok (some { conn := conn }) := by
  obtain ⟨st, det⟩ := config
  obtain rfl : st = SourceType.database Database.mysql := hst
  simp [create_connection, hnew]

/-- Witness for C2 at a concrete MySQL config and constructor. -/
theorem create_connection_mysql_ok_witness :
    create_connection mysqlNew0 cfgMysql =
      RunResult.ok (some { conn := { config := cfgMysql } }) :=
  create_connection_mysql_ok mysqlNew0 cfgMysql { config := cfgMysql } rfl rfl

/-- C3: after add_connection(id, conn), get_connection(id) returns exactly
conn (insert overwrites any prior entry); and for any id never passed to
add_connection along a sequence of operations from the default registry,
get_connection(id) returns None. -/
theorem add_get_connection_roundtrip
    (b : Basable) (uid : String) (conn : SharedConnection)
    (cj : String → Except AppError JwtSession) (ops : List Op)
    (final : Basable)
    (hops : ∀ u c, Op.addConnection u c ∈ ops → u ≠ uid)
    (hrun : runTrace cj Basable.default ops = some final) :
    (b.add_connection uid conn).get_connection uid = some conn ∧
    final.get_connection uid = none := by
  constructor
  · exact StrMap.get_insert_self b.connections uid conn
  · exact connections_get_runTrace cj uid ops Basable.default final hops hrun

/-- Witness for C3: a concrete insert round-trip, and a concrete two-step
trace (guest creation then logout) that leaves the connection entry for an
untouched id absent. -/
theorem add_get_connection_roundtrip_witness :
    (Basable.default.add_connection "u" conn0).get_connection "u" = some conn0 ∧
    ((Basable.create_guest_user cj0 Basable.default "a").2.log_user_out
      "a").get_connection "u" = none :=
  add_get_connection_roundtrip Basable.default "u" conn0 cj0 traceA
    ((Basable.create_guest_user cj0 Basable.default "a").2.log_user_out "a")
    (by intro u c hc; simp [traceA] at hc) rfl

/-- C4: after a successful create_guest_user(origin), find_user(origin)
returns a User whose id equals origin and whose is_logged field is false. -/
theorem create_guest_user_find
    (cj : String → Except AppError JwtSession) (b : Basable)
    (origin : String) (s : JwtSession) (h : cj origin = Except.ok s) :
    (Basable.create_guest_user cj b origin).2.find_user origin =
      some { id := origin, is_logged := false } :=
  create_guest_user_users_get cj b origin s h

/-- Witness for C4 at a concrete origin. -/
theorem create_guest_user_find_witness :
    (Basable.create_guest_user cj0 Basable.default "1.2.3.4").2.find_user
      "1.2.3.4" = some { id := "1.2.3.4", is_logged := false } :=
  create_guest_user_find cj0 Basable.default "1.2.3.4"
    { token := "1.2.3.4" } rfl

/-- C5: create_guest_user returns an error exactly when create_jwt fails,
propagating the very same error; and on failure the users map (indeed the
whole registry state) is left unchanged. -/
theorem create_guest_user_error_iff
    (cj : String → Except AppError JwtSession) (b : Basable) (ip : String) :
    (∀ e, (Basable.create_guest_user cj b ip).1 = Except.error e ↔
      cj ip = Except.error e) ∧
    (∀ e, cj ip = Except.error e →
      (Basable.create_guest_user cj b ip).2 = b) := by
  cases hcj : cj ip with
  | error e2 =>
    constructor
    · intro e
      simp [Basable.create_guest_user, hcj]
    · intro e _
      simp [Basable.create_guest_user, hcj]
  | ok s =>
    constructor
    · intro e
      simp [Basable.create_guest_user, hcj]
    · intro e hcontra
      exact Except.noConfusion hcontra

/-- Witness for C5 at a failing session minter. -/
theorem create_guest_user_error_iff_witness :
    (Basable.create_guest_user cjErr Basable.default "1.2.3.4").1 =
      Except.error (AppError.sessionMinting "boom") ∧
    (Basable.create_guest_user cjErr Basable.default "1.2.3.4").2 =
      Basable.default := by
  have h := create_guest_user_error_iff cjErr Basable.default "1.2.3.4"
  exact ⟨(h.1 (AppError.sessionMinting "boom")).mpr rfl,
    h.2 (AppError.sessionMinting "boom") rfl⟩

/-- C6: log_user_out on an id with no user entry is a no-op returning the
registry unchanged; after log_user_out on any id, find_user for that id
returns None. -/
theorem log_user_out_spec (b : Basable) (uid : String) :
    (b.find_user uid = none → b.log_user_out uid = b) ∧
    (b.log_user_out uid).find_user uid = none := by
  constructor
  · intro h
    simp [Basable.log_user_out, h]
  · cases hf : b.find_user uid with
    | some u =>
      simp only [Basable.log_user_out, hf]
      exact StrMap.get_remove_self b.users uid
    | none =>
      simp only [Basable.log_user_out, hf]

/-- Witness for C6: logout on the empty registry is a no-op; logout of an
existing user makes the subsequent lookup return None. -/
theorem log_user_out_spec_witness :
    Basable.default.log_user_out "x" = Basable.default ∧
    (b1.log_user_out "u").find_user "u" = none :=
  ⟨(log_user_out_spec Basable.default "x").1 rfl,
    (log_user_out_spec b1 "u").2⟩

/-- C7: save_config does not abort when the user id is present: it returns
with the registry unchanged, persistence being delegated to the found user;
the panic branch (the expect call) is taken exactly when the user is
absent. -/
theorem save_config_spec (b : Basable) (cfg : Config) (uid : String) :
    ((∃ u, b.find_user uid = some u) →
      Basable.save_config b cfg uid = some b) ∧
    (b.find_user uid = none → Basable.save_config b cfg uid = none) := by
  constructor
  · rintro ⟨u, hu⟩
    simp [Basable.save_config, hu]
  · intro h
    simp [Basable.save_config, h]

/-- Witness for C7: save_config succeeds on a registry holding the user and
panics (None) on the empty registry. -/
theorem save_config_spec_witness :
    Basable.save_config b1 cfgMysql "u" = some b1 ∧
    Basable.save_config Basable.default cfgMysql "u" = none :=
  ⟨(save_config_spec b1 cfgMysql "u").1 ⟨user0, rfl⟩,
    (save_config_spec Basable.default cfgMysql "u").2 rfl⟩

/-- C8: get_connection and find_user are pure lookups: each returns exactly
the entry of the respective map at the id (so absence comes back as None),
and by their types they take the registry by shared reference and return
only an Option, never an error and never a modified state. -/
theorem lookups_pure (b : Basable) (uid : String) :
    b.get_connection uid = b.connections.get uid ∧
    b.find_user uid = b.users.get uid :=
  ⟨rfl, rfl⟩

/-- C9: log_user_out never touches the connections map, and every users-map
entry other than the given id is unchanged. -/
theorem log_user_out_frame (b : Basable) (uid : String) :
    (b.log_user_out uid).connections = b.connections ∧
    ∀ k, k ≠ uid → (b.log_user_out uid).users.get k = b.users.get k := by
  constructor
  · cases hf : b.find_user uid with
    | some u => simp [Basable.log_user_out, hf]
    | none => simp [Basable.log_user_out, hf]
  · intro k hk
    cases hf : b.find_user uid with
    | some u =>
      simp only [Basable.log_user_out, hf]
      exact StrMap.get_remove_ne b.users uid k hk
    | none => simp [Basable.log_user_out, hf]

/-- Witness for C9 at a concrete registry and distinct ids. -/
theorem log_user_out_frame_witness :
    (b1.log_user_out "u").connections = b1.connections ∧
    (b1.log_user_out "u").users.get "v" = b1.users.get "v" :=
  ⟨(log_user_out_frame b1 "u").1,
    (log_user_out_frame b1 "u").2 "v" (by decide)⟩

/-- C10: after any sequence of the core operations starting from the default
registry, every users-map entry has key equal to the stored id and a false
is_logged flag; and a create_guest_user on the reached state (in particular
a repeated one on the same origin) overwrites the entry at the origin with a
fresh guest user. -/
theorem users_map_guest_invariant
    (cj : String → Except AppError JwtSession) (ops : List Op)
    (final : Basable) (h : runTrace cj Basable.default ops = some final) :
    (∀ k u, final.users.get k = some u → u.id = k ∧ u.is_logged = false) ∧
    ∀ origin s, cj origin = Except.ok s →
      (Basable.create_guest_user cj final origin).2.users.get origin =
        some { id := origin, is_logged := false } := by
  constructor
  · exact guestInv_runTrace cj ops Basable.default final
      (fun k u hu => Option.noConfusion hu) h
  · intro origin s hcj
    exact create_guest_user_users_get cj final origin s hcj

/-- Witness for C10: a concrete trace that creates the guest "a" twice; the
invariant and the overwrite hold at the reached state. -/
theorem users_map_guest_invariant_witness :
    ((Basable.create_guest_user cj0 Basable.default "a").2.users.get "a" =
      some { id := "a", is_logged := false }) ∧
    ((Basable.create_guest_user cj0
        (Basable.create_guest_user cj0 Basable.default "a").2 "a").2.users.get
      "a" = some { id := "a", is_logged := false }) := by
  have h := users_map_guest_invariant cj0 [Op.createGuestUser "a"]
    (Basable.create_guest_user cj0 Basable.default "a").2 rfl
  refine ⟨?_, h.2 "a" { token := "a" } rfl⟩
  have h0 := users_map_guest_invariant cj0 [] Basable.default rfl
  exact h0.2 "a" { token := "a" } rfl
